import Mathlib

/-!
Verification of the hklpy diffractometer orientation/transformation engine.

The repository's distributed sources here are its documentation (user guide,
geometry tables, executed example notebooks); the Python modules
(`hkl/calc.py`, `hkl/diffract.py`, `hkl/sample.py`, `hkl/util.py`) are not
present.  The definitions below are therefore modelled from the repository's
specification and documentation, which record both the design and concrete
observed behaviour of those modules.  Where the documentation pins down
behaviour (e.g. `compute_UB` returning the status value `1`, or the
low-level `calc.forward` returning only the *allowed* solutions), the
definitions follow the documentation.
-/

namespace Hklpy

/-- Error taxonomy of the engine (spec §7). -/
inductive HklError where
  | InvalidLatticeError
  | DegenerateReflectionsError
  | InsufficientReflectionsError
  | InvalidConstraintError
  | NoConstraintsToUndoError
  | UnknownModeError
  | MissingModeParameterError
  | NoSolutionError
  | BackendComputationError
  deriving DecidableEq, Repr

/-- Real axes of the `E4CV` geometry, in the documented order
`['omega', 'chi', 'phi', 'tth']` (e4cv example, `physical_axis_names`). -/
inductive Axis where
  | omega
  | chi
  | phi
  | tth
  deriving DecidableEq, Repr

/-- Real-axis position of the `E4CV` geometry: one value (degrees) per real
axis, in the documented axis order. -/
structure Position4 where
  omega : ℚ
  chi : ℚ
  phi : ℚ
  tth : ℚ
  deriving DecidableEq, Repr

/-- Value of a position at a named axis. -/
def Position4.axis (p : Position4) : Axis → ℚ
  | .omega => p.omega
  | .chi => p.chi
  | .phi => p.phi
  | .tth => p.tth

/-- Pseudo-axis coordinates of the `hkl` calculation engine. -/
structure PseudoHKL where
  h : ℚ
  k : ℚ
  l : ℚ
  deriving DecidableEq, Repr

/-- Modelled from the spec: per-axis constraint record of `hkl.util.Constraint`
(`hkl/util.py` is absent from the sources), with the documented fields
`low_limit`, `high_limit`, `value`, `fit` (constraints chapter): `fit = true`
lets the solver vary the axis within `[low_limit, high_limit]`; `fit = false`
holds the axis at `value`. -/
structure Constraint where
  low_limit : ℚ
  high_limit : ℚ
  value : ℚ
  fit : Bool
  deriving DecidableEq, Repr

/-- Documented default constraint for every `E4CV` axis:
`low_limit = -180, high_limit = 180, value = 0, fit = True`. -/
def defaultConstraint : Constraint :=
  { low_limit := -180, high_limit := 180, value := 0, fit := true }

/-- Constraint table of the `E4CV` geometry: one `Constraint` per real axis. -/
structure Constraints where
  omega : Constraint
  chi : Constraint
  phi : Constraint
  tth : Constraint
  deriving DecidableEq, Repr

/-- Documented default constraint table (wide-open limits, all axes fit). -/
def defaultConstraints : Constraints :=
  { omega := defaultConstraint, chi := defaultConstraint,
    phi := defaultConstraint, tth := defaultConstraint }

/-- Constraint of a named axis in a constraint table. -/
def Constraints.axis (cs : Constraints) : Axis → Constraint
  | .omega => cs.omega
  | .chi => cs.chi
  | .phi => cs.phi
  | .tth => cs.tth

/-- Replace the constraint of one named axis. -/
def Constraints.setAxis (cs : Constraints) : Axis → Constraint → Constraints
  | .omega, c => { cs with omega := c }
  | .chi, c => { cs with chi := c }
  | .phi, c => { cs with phi := c }
  | .tth, c => { cs with tth := c }

/-- Modelled from the spec: constraint state of the diffractometer
(`hkl/diffract.py` is absent from the sources): the current constraint table
plus the single-level undo buffer holding the table saved by the last apply
(spec §3: "last-applied-constraints are retained as a single-level undo
stack — not a full history"). -/
structure ConstraintState where
  current : Constraints
  undo : Option Constraints
  deriving DecidableEq, Repr

/-- Initial constraint state: documented defaults, empty undo buffer. -/
def initialConstraintState : ConstraintState :=
  { current := defaultConstraints, undo := none }

/-- Validity of one constraint entry: `low_limit <= high_limit`
(spec §4.3: applying a constraint with `low_limit > high_limit` fails with
`InvalidConstraintError`). -/
def Constraint.valid (c : Constraint) : Bool := decide (c.low_limit ≤ c.high_limit)

/-- Modelled from the spec: `Diffractometer.apply_constraints`
(`hkl/diffract.py` is absent from the sources).  Replaces the constraints of
the named axes only, after validating the whole batch; validation errors
"never partially apply ... all-or-nothing" (spec §7), and the prior table is
pushed onto the one-level undo buffer (spec §4.3). -/
def applyConstraints (s : ConstraintState) (batch : List (Axis × Constraint)) :
    Except HklError ConstraintState :=
  if batch.all (fun e => e.2.valid) then
    .ok { current := batch.foldl (fun cs e => cs.setAxis e.1 e.2) s.current,
          undo := some s.current }
  else
    .error .InvalidConstraintError

/-- Constraint state visible after an `apply_constraints` call: the new state
on success, the unchanged state when the call raised. -/
def applyRun (s : ConstraintState) (batch : List (Axis × Constraint)) : ConstraintState :=
  match applyConstraints s batch with
  | .ok s' => s'
  | .error _ => s

/-- Modelled from the spec: `Diffractometer.undo_last_constraints`
(`hkl/diffract.py` is absent from the sources): restores the table saved in
the one-level undo buffer, or fails when the buffer is empty (spec §4.3). -/
def undoLast (s : ConstraintState) : Except HklError ConstraintState :=
  match s.undo with
  | some prev => .ok { current := prev, undo := none }
  | none => .error .NoConstraintsToUndoError

end Hklpy

namespace Hklpy

/-- Documented operating modes of the `hkl` engine of the `E4CV` geometry
(geometry tables chapter, `E4CV` table). -/
def e4cvHklModes : List String :=
  ["bissector", "constant_chi", "constant_omega", "constant_phi",
   "double_diffraction", "psi_constant"]

/-- Modelled from the spec: setting the operating mode (`engine.mode = name`;
the engine class of `hkl/calc.py` is absent from the sources).  A name from
the geometry's fixed mode catalog is accepted at any time (whatever the
current mode); any other name fails with `UnknownModeError` (spec §4.5). -/
def setMode (catalog : List String) (_current : String) (m : String) :
    Except HklError String :=
  if m ∈ catalog then .ok m else .error .UnknownModeError

end Hklpy

namespace Hklpy

/-- Wavelength–energy conversion constant of `hkl/calc.py` (angstrom · keV):
`energy = A_KEV / wavelength`.  The documented report `energy, keV =
8.050922077922078` at `wavelength = 1.54` angstrom fixes this constant. -/
def A_KEV : ℚ := 12.39842

/-- Modelled from the spec: `calc.wavelength` as a function of `calc.energy`
(diffract chapter: `.calc.wavelength = A*keV / .calc.energy`; `hkl/calc.py`
is absent from the sources).  Energy in keV, wavelength in angstrom. -/
def wavelengthOfEnergy (energy : ℚ) : ℚ := A_KEV / energy

/-- Modelled from the spec: `calc.energy` as a function of `calc.wavelength`
(the same documented reciprocal relation). -/
def energyOfWavelength (wavelength : ℚ) : ℚ := A_KEV / wavelength

/-- Engineering units accepted for the diffractometer `.energy` signal in the
documented examples (keV is the `hkl.calc` native unit; the worked example
uses eV). -/
inductive EnergyUnits where
  | keV
  | eV
  deriving DecidableEq, Repr

/-- Conversion of an energy value from the given engineering units into keV,
as required by the lower-level `hkl.calc` module. -/
def toKeV : EnergyUnits → ℚ → ℚ
  | .keV, v => v
  | .eV, v => v / 1000

/-- Modelled from the spec: `Diffractometer._energy_changed` (diffract
chapter; `hkl/diffract.py` is absent from the sources).  Writing the
`.energy` signal first adds `.energy_offset`, then converts the sum from
`.energy_units` into keV, and stores the result as `calc.energy`:
`.calc.energy = in_keV(.energy + .energy_offset)`. -/
def energyChanged (units : EnergyUnits) (offset value : ℚ) : ℚ :=
  toKeV units (value + offset)

end Hklpy

namespace Hklpy

/-- Comparison tolerance of the engine's limit checks (spec §4.4: "a fixed
small epsilon (e.g. 1e-9) to absorb floating-point solver noise"). -/
def limitEps : ℚ := 1 / 10 ^ 9

/-- Acceptance of one axis value under one constraint (spec §4.4 step 2):
a fit axis must lie within `[low_limit, high_limit]` (epsilon-absorbed), a
non-fit axis must sit at `value` within the numerical tolerance. -/
def axisAllowed (c : Constraint) (v : ℚ) : Bool :=
  if c.fit then
    decide (c.low_limit - limitEps ≤ v ∧ v ≤ c.high_limit + limitEps)
  else
    decide (|v - c.value| ≤ limitEps)

/-- Acceptance of a full real-axis position under a constraint table: every
axis accepted. -/
def allowed (cs : Constraints) (p : Position4) : Bool :=
  axisAllowed cs.omega p.omega && axisAllowed cs.chi p.chi &&
    axisAllowed cs.phi p.phi && axisAllowed cs.tth p.tth

/-- Geometry Backend collaborator interface for the transformation engine
(spec §2, §6): an external per-geometry trigonometric solver.  `solveForward`
returns every real-axis solution of the geometry's equations for the active
mode at a pseudo target (the raw branch set, before the engine's constraint
handling); `solveInverse` returns the unique pseudo coordinates of a real
position. -/
structure Backend where
  solveForward : PseudoHKL → List Position4
  solveInverse : Position4 → PseudoHKL

/-- Modelled from the spec: per-instance state of the transformation engine
(`hkl/calc.py` and `hkl/diffract.py` are absent from the sources): the
geometry backend, the current constraint table, and the per-instance
pluggable decision function `_decision_fcn` selecting one forward solution,
given the current position and the allowed solution list. -/
structure Engine where
  backend : Backend
  constraints : Constraints
  decisionFcn : Position4 → List Position4 → Option Position4

/-- Documented default decision function (`hkl.calc.default_decision_function`,
absent from the sources): "selects the first allowed solution". -/
def defaultDecisionFcn (_current : Position4) (solutions : List Position4) :
    Option Position4 :=
  solutions.head?

/-- Modelled from the spec: the low-level full-solution listing
`CalcRecip.forward` (`hkl/calc.py` is absent from the sources).  The
constraints chapter documents it as "a list of all *allowed* solutions" and
its worked example shows the listing shrink from 12 solutions to 1 after
`apply_constraints`: the listing contains exactly the backend solutions that
pass the current constraint table. -/
def forwardAll (e : Engine) (target : PseudoHKL) : List Position4 :=
  (e.backend.solveForward target).filter (fun p => allowed e.constraints p)

/-- Modelled from the spec: `Diffractometer.forward` (`hkl/diffract.py` is
absent from the sources): applies the decision function to the allowed
solution list and fails with `NoSolutionError` when no solution is selected
(spec §4.4 steps 1-4). -/
def forward (e : Engine) (current : Position4) (target : PseudoHKL) :
    Except HklError Position4 :=
  match e.decisionFcn current (forwardAll e target) with
  | some p => .ok p
  | none => .error .NoSolutionError

/-- Modelled from the spec: `Diffractometer.inverse` (`hkl/diffract.py` is
absent from the sources): passes the real-axis values to the backend, which
returns exactly one pseudo coordinate tuple; constraints are not consulted
(spec §4.4). -/
def inverse (e : Engine) (p : Position4) : PseudoHKL :=
  e.backend.solveInverse p

/-- Componentwise closeness of two real-axis positions within a tolerance
(degrees on every axis). -/
def withinTol (tol : ℚ) (p q : Position4) : Prop :=
  |p.omega - q.omega| ≤ tol ∧ |p.chi - q.chi| ≤ tol ∧
    |p.phi - q.phi| ≤ tol ∧ |p.tth - q.tth| ≤ tol

/-- Reachability of a real-axis position under the engine's mode and
constraints: the position passes the current constraint table and is among
the geometry's real-axis solutions for its own pseudo coordinates (spec §8
"for any reachable real-axis position p"). -/
def Reachable (e : Engine) (p : Position4) : Prop :=
  allowed e.constraints p = true ∧
    p ∈ e.backend.solveForward (e.backend.solveInverse p)

end Hklpy

namespace Hklpy

/-- Cartesian 3-vector over the reals. -/
abbrev Vec3 : Type := Fin 3 → ℝ

/-- Build a 3-vector from its components. -/
def vec3 (x y z : ℝ) : Vec3 := ![x, y, z]

/-- Real 3x3 matrix, indexed row-first. -/
abbrev Mat3 : Type := Fin 3 → Fin 3 → ℝ

/-- Identity 3x3 matrix. -/
def idMat3 : Mat3 := fun i j => if i = j then 1 else 0

/-- Product of two 3x3 matrices. -/
def mul3 (A B : Mat3) : Mat3 := fun i j =>
  A i 0 * B 0 j + A i 1 * B 1 j + A i 2 * B 2 j

/-- Transpose of a 3x3 matrix. -/
def transpose3 (A : Mat3) : Mat3 := fun i j => A j i

/-- Matrix-vector product. -/
def mulVec3 (A : Mat3) (v : Vec3) : Vec3 := fun i =>
  A i 0 * v 0 + A i 1 * v 1 + A i 2 * v 2

/-- Scalar multiple of a 3x3 matrix. -/
def smul3 (c : ℝ) (A : Mat3) : Mat3 := fun i j => c * A i j

/-- Dot product of two 3-vectors. -/
def dot3 (u v : Vec3) : ℝ := u 0 * v 0 + u 1 * v 1 + u 2 * v 2

/-- Cross product of two 3-vectors. -/
def cross3 (u v : Vec3) : Vec3 :=
  vec3 (u 1 * v 2 - u 2 * v 1) (u 2 * v 0 - u 0 * v 2) (u 0 * v 1 - u 1 * v 0)

/-- Squared Euclidean magnitude of a 3-vector. -/
def normSq3 (v : Vec3) : ℝ := v 0 ^ 2 + v 1 ^ 2 + v 2 ^ 2

/-- Euclidean magnitude of a 3-vector. -/
noncomputable def norm3 (v : Vec3) : ℝ := Real.sqrt (normSq3 v)

/-- Unit vector along a 3-vector. -/
noncomputable def normalize3 (v : Vec3) : Vec3 := fun i => v i / norm3 v

/-- Angle conversion: the public contract is in degrees, trigonometry in
radians (spec §4.4). -/
noncomputable def deg2rad (x : ℝ) : ℝ := x * Real.pi / 180

/-- Crystal lattice: unit cell lengths (angstrom) and angles (degrees)
(spec §3). -/
structure Lattice where
  a : ℝ
  b : ℝ
  c : ℝ
  alpha : ℝ
  beta : ℝ
  gamma : ℝ

/-- Modelled from the spec: the reciprocal-lattice `B` matrix construction of
`compute_B` (spec §4.1; `hkl/sample.py` and the libhkl computation are absent
from the sources).  Reciprocal parameters come from the standard
triple-product relations and `B` is assembled in the Busing-Levy convention
scaled by 2π, so that a cubic cell gives `B = (2π/a)·I`, matching the
documented `UB` diagonal `1.15691131 = 2π/5.431` of the e4cv example. -/
noncomputable def computeB (l : Lattice) : Mat3 :=
  let ca := Real.cos (deg2rad l.alpha)
  let cb := Real.cos (deg2rad l.beta)
  let cg := Real.cos (deg2rad l.gamma)
  let sa := Real.sin (deg2rad l.alpha)
  let sb := Real.sin (deg2rad l.beta)
  let sg := Real.sin (deg2rad l.gamma)
  let D := Real.sqrt (1 - ca ^ 2 - cb ^ 2 - cg ^ 2 + 2 * ca * cb * cg)
  let astar := sa / (l.a * D)
  let bstar := sb / (l.b * D)
  let cstar := sg / (l.c * D)
  let cgstar := (ca * cb - cg) / (sa * sb)
  let cbstar := (cg * ca - cb) / (sg * sa)
  let sgstar := Real.sqrt (1 - cgstar ^ 2)
  fun i j =>
    2 * Real.pi *
      (![![astar, bstar * cgstar, cstar * cbstar],
         ![0, bstar * sgstar, -(cstar * sb * ca)],
         ![0, 0, 1 / l.c]] i j)

/-- Orthonormal triad of two non-collinear 3-vectors, as columns of a matrix
(spec §4.2): first column the first vector normalized, second the component
of the second vector orthogonalized against the first (normalized), third
their cross product. -/
noncomputable def triad (v1 v2 : Vec3) : Mat3 :=
  let t1 := normalize3 v1
  let t2 := normalize3 (fun i => v2 i - dot3 v2 t1 * t1 i)
  let t3 := cross3 t1 t2
  fun i j => ![t1, t2, t3] j i

/-- Orientation reflection: Miller indices attached to a real-axis position
at a recorded wavelength, with the used-for-orientation flag (spec §3). -/
structure Reflection where
  h : ℚ
  k : ℚ
  l : ℚ
  position : Position4
  wavelength : ℚ
  orient : Bool
  deriving DecidableEq

/-- Crystal sample: lattice, insertion-ordered reflections, orientation
matrices `U` and `UB` (spec §3; `hkl/sample.py` is absent from the
sources). -/
structure Sample where
  name : String
  lattice : Lattice
  reflections : List Reflection
  U : Mat3
  UB : Mat3

/-- Geometry Backend collaborator interface for the orientation solver (spec
§6): `axisKinematics` is the geometry's forward kinematics (the rotation of
the lab frame relative to the phi frame at a real-axis position), and
`diffractionVector` the lab-frame scattering vector of the detector setting
at a wavelength; both belong to the external per-geometry solver. -/
structure OrientationBackend where
  axisKinematics : Position4 → Mat3
  diffractionVector : Position4 → ℚ → Vec3

/-- Modelled from the spec: the reciprocal-space Cartesian vector `h_phi` of
a reflection in the diffractometer's fixed phi reference frame (spec §4.2):
the lab-frame scattering vector rotated back through the inverse (transpose)
of the axis kinematics rotation. -/
noncomputable def hphi (bk : OrientationBackend) (r : Reflection) : Vec3 :=
  mulVec3 (transpose3 (bk.axisKinematics r.position))
    (bk.diffractionVector r.position r.wavelength)

/-- Reciprocal-space Cartesian vector `h_c` of a reflection: its Miller
indices mapped through the lattice `B` matrix (spec §4.2). -/
noncomputable def hc (lat : Lattice) (r : Reflection) : Vec3 :=
  mulVec3 (computeB lat) (vec3 (r.h : ℝ) (r.k : ℝ) (r.l : ℝ))

/-- Cross-product magnitude threshold of the non-collinearity check
(spec §4.2). -/
noncomputable def degenEps : ℝ := 1 / 10 ^ 6

/-- Modelled from the spec: the Busing-Levy two-reflection orientation matrix
(spec §4.2): `U = triad(h_phi1, h_phi2) · triad(h_c1, h_c2)^T`. -/
noncomputable def busingLevyU (bk : OrientationBackend) (lat : Lattice)
    (r1 r2 : Reflection) : Mat3 :=
  mul3 (triad (hphi bk r1) (hphi bk r2)) (transpose3 (triad (hc lat r1) (hc lat r2)))

/-- Modelled from the spec and documentation: `HklSample.compute_UB`
(`hkl/sample.py` is absent from the sources).  Looks up the two reflections
by index (fewer than two available reflections fail with
`InsufficientReflectionsError`, spec §4.2), marks both as used for
orientation, rejects collinear reflections via the cross-product magnitude
threshold on their `h_c` vectors (`DegenerateReflectionsError`), computes
the Busing-Levy `U`, stores `U` and `UB = U · B` on the sample, and returns
the new sample together with the documented status value: "The
`compute_UB()` method always returns 1. Ignore it." (e4cv example). -/
noncomputable def computeUB (bk : OrientationBackend) (s : Sample) (i j : ℕ) :
    Except HklError (Sample × ℤ) :=
  match s.reflections.get? i, s.reflections.get? j with
  | some r1, some r2 =>
    if normSq3 (cross3 (hc s.lattice r1) (hc s.lattice r2)) ≤ degenEps ^ 2 then
      .error .DegenerateReflectionsError
    else
      let U := busingLevyU bk s.lattice r1 r2
      let refl := (s.reflections.set i { r1 with orient := true }).set j
        { r2 with orient := true }
      .ok ({ s with reflections := refl, U := U, UB := mul3 U (computeB s.lattice) }, 1)
  | _, _ => .error .InsufficientReflectionsError

/-- Diffractometer instance state relevant to orientation setup: the current
sample together with the constraint state (spec §9: explicit fields on a
single instance). -/
structure DiffState where
  sample : Sample
  cstate : ConstraintState

/-- Modelled from the spec: `HklSample.add_reflection` through the
diffractometer (spec §6; `hkl/sample.py` is absent from the sources).
Appends the reflection (not yet marked for orientation) and returns its
insertion index; the real-axis position is stored verbatim — the overview
chapter notes "It is not necessary that the real axis positions be within
any of the constraints." -/
def addReflection (d : DiffState) (h k l : ℚ) (pos : Position4) (w : ℚ) :
    DiffState × ℕ :=
  ({ d with sample := { d.sample with
      reflections := d.sample.reflections ++
        [{ h := h, k := k, l := l, position := pos, wavelength := w, orient := false }] } },
   d.sample.reflections.length)

/-- `compute_UB` lifted to the diffractometer state: it reads and writes only
the sample. -/
noncomputable def diffComputeUB (bk : OrientationBackend) (d : DiffState)
    (i j : ℕ) : Except HklError (DiffState × ℤ) :=
  (computeUB bk d.sample i j).map (fun p => ({ d with sample := p.1 }, p.2))

end Hklpy

namespace Hklpy

/-- Toy geometry backend for concrete engine runs: one solution branch per
pseudo target, with `tth` driven to zero, and the pseudo coordinates read
off the first three axes. -/
def toyBackend : Backend :=
  { solveForward := fun t => [{ omega := t.h, chi := t.k, phi := t.l, tth := 0 }],
    solveInverse := fun p => { h := p.omega, k := p.chi, l := p.phi } }

/-- Engine over the toy backend with the documented defaults. -/
def toyEngine : Engine :=
  { backend := toyBackend, constraints := defaultConstraints,
    decisionFcn := defaultDecisionFcn }

/-- Two-branch geometry backend: the raw solution set of the `(100)` target
has two branches, mirroring the positive-`omega` and negative-`omega`
solutions of the documented constraint-filtering example. -/
def twoBranchBackend : Backend :=
  { solveForward := fun _ =>
      [{ omega := 30, chi := 0, phi := 90, tth := 60 },
       { omega := -30, chi := 0, phi := -90, tth := -60 }],
    solveInverse := fun _ => { h := 1, k := 0, l := 0 } }

/-- Constraint table keeping `omega`, `phi` and `tth` non-negative (the
second branch of `twoBranchBackend` violates it). -/
def positiveConstraints : Constraints :=
  { omega := ⟨0, 180, 0, true⟩, chi := defaultConstraint,
    phi := ⟨0, 180, 0, true⟩, tth := ⟨0, 180, 0, true⟩ }

/-- Engine over the two-branch backend with the positive constraint table. -/
def twoBranchEngine : Engine :=
  { backend := twoBranchBackend, constraints := positiveConstraints,
    decisionFcn := defaultDecisionFcn }

/-- Engine over the two-branch backend with the default (wide-open)
constraint table. -/
def twoBranchEngineOpen : Engine :=
  { backend := twoBranchBackend, constraints := defaultConstraints,
    decisionFcn := defaultDecisionFcn }

end Hklpy

namespace Hklpy

/-- Toy orientation kinematics for concrete `compute_UB` runs: identity
rotation at every position, with the lab scattering vector along x for a
reflection measured at `chi = 0` and along y otherwise. -/
def toyOrientationBackend : OrientationBackend :=
  { axisKinematics := fun _ => idMat3,
    diffractionVector := fun p _ => if p.chi = 0 then vec3 1 0 0 else vec3 0 1 0 }

/-- The documented (4,0,0) orientation reflection of the e4cv example. -/
def reflection400 : Reflection :=
  { h := 4, k := 0, l := 0,
    position := { omega := -145.451, chi := 0, phi := 0, tth := 69.0966 },
    wavelength := 1.54, orient := false }

/-- The documented (0,4,0) orientation reflection of the e4cv example. -/
def reflection040 : Reflection :=
  { h := 0, k := 4, l := 0,
    position := { omega := -145.451, chi := 90, phi := 0, tth := 69.0966 },
    wavelength := 1.54, orient := false }

/-- Cubic lattice with unit cell edge 2π (the documented vibranium cell of
the overview chapter). -/
noncomputable def latTwoPi : Lattice :=
  { a := 2 * Real.pi, b := 2 * Real.pi, c := 2 * Real.pi,
    alpha := 90, beta := 90, gamma := 90 }

/-- Cubic lattice with unit cell edge π. -/
noncomputable def latPi : Lattice :=
  { a := Real.pi, b := Real.pi, c := Real.pi, alpha := 90, beta := 90, gamma := 90 }

/-- Sample holding the two documented orientation reflections on the 2π
cubic cell, before any orientation computation (`U = UB = I` would be
`U = I`, `UB = B`; the initial matrices are irrelevant to `compute_UB`). -/
noncomputable def sampleTwoPi : Sample :=
  { name := "vibranium", lattice := latTwoPi,
    reflections := [reflection400, reflection040], U := idMat3, UB := idMat3 }

/-- The same sample on the π cubic cell. -/
noncomputable def samplePi : Sample :=
  { name := "vibranium2", lattice := latPi,
    reflections := [reflection400, reflection040], U := idMat3, UB := idMat3 }

/-- Narrow constraint table: every axis restricted to `[0, 1]`. -/
def narrowConstraints : Constraints :=
  { omega := ⟨0, 1, 0, true⟩, chi := ⟨0, 1, 0, true⟩,
    phi := ⟨0, 1, 0, true⟩, tth := ⟨0, 1, 0, true⟩ }

/-- Diffractometer state with the 2π sample under narrow constraints. -/
noncomputable def dstateNarrow : DiffState :=
  { sample := sampleTwoPi, cstate := { current := narrowConstraints, undo := none } }

/-- Diffractometer state with the same sample under default constraints. -/
noncomputable def dstateOpen : DiffState :=
  { sample := sampleTwoPi, cstate := initialConstraintState }

end Hklpy

namespace Hklpy

/-- C5: for every constraint maps A and B, `apply(A)` then `apply(B)` then
`undo_last()` leaves the constraint state equal to the state right after
`apply(A)` (the state right before `apply(B)`), not to the original
wide-open defaults. -/
theorem apply_apply_undo_restores (s s₁ s₂ : ConstraintState)
    (A B : List (Axis × Constraint))
    (_hA : applyConstraints s A = .ok s₁)
    (hB : applyConstraints s₁ B = .ok s₂) :
    ∃ s₃, undoLast s₂ = .ok s₃ ∧ s₃.current = s₁.current := by
  rw [applyConstraints] at hB
  split at hB
  · obtain rfl : _ = s₂ := by injection hB
    exact ⟨_, rfl, rfl⟩
  · exact absurd hB (by simp)

/-- Witness for C5: a concrete apply-apply-undo run ends in the state after
the first apply, which differs from the wide-open defaults. -/
theorem apply_apply_undo_restores_witness :
    (∃ s₃, undoLast (applyRun (applyRun initialConstraintState
        [(Axis.tth, ⟨0, 120, 0, true⟩)]) [(Axis.omega, ⟨10, 40, 0, true⟩)]) = .ok s₃ ∧
      s₃.current = (applyRun initialConstraintState
        [(Axis.tth, ⟨0, 120, 0, true⟩)]).current) ∧
    (applyRun initialConstraintState
        [(Axis.tth, ⟨0, 120, 0, true⟩)]).current ≠ defaultConstraints :=
  ⟨apply_apply_undo_restores initialConstraintState
      (applyRun initialConstraintState [(Axis.tth, ⟨0, 120, 0, true⟩)])
      (applyRun (applyRun initialConstraintState [(Axis.tth, ⟨0, 120, 0, true⟩)])
        [(Axis.omega, ⟨10, 40, 0, true⟩)])
      [(Axis.tth, ⟨0, 120, 0, true⟩)] [(Axis.omega, ⟨10, 40, 0, true⟩)]
      rfl rfl,
   by decide⟩

/-- C7: `apply_constraints` is all-or-nothing: a batch holding any entry with
`low_limit > high_limit` raises `InvalidConstraintError` and mutates no
axis's constraint — the constraint state is unchanged on error. -/
theorem apply_constraints_all_or_nothing (s : ConstraintState)
    (batch : List (Axis × Constraint))
    (hbad : ∃ e ∈ batch, e.2.high_limit < e.2.low_limit) :
    applyConstraints s batch = .error .InvalidConstraintError ∧
      applyRun s batch = s := by
  have hall : ¬ (batch.all fun e => e.2.valid) = true := by
    rw [List.all_eq_true]
    intro hforall
    obtain ⟨e, he, hlt⟩ := hbad
    have := hforall e he
    rw [Constraint.valid, decide_eq_true_eq] at this
    exact absurd hlt (not_lt.mpr this)
  have herr : applyConstraints s batch = .error .InvalidConstraintError := by
    rw [applyConstraints, if_neg hall]
  exact ⟨herr, by rw [applyRun, herr]⟩

/-- Witness for C7: a batch whose single entry has `low_limit = 120 >
high_limit = 0` raises and leaves the default state untouched. -/
theorem apply_constraints_all_or_nothing_witness :
    applyConstraints initialConstraintState [(Axis.tth, ⟨120, 0, 0, true⟩)] =
      .error .InvalidConstraintError ∧
    applyRun initialConstraintState [(Axis.tth, ⟨120, 0, 0, true⟩)] =
      initialConstraintState :=
  apply_constraints_all_or_nothing initialConstraintState
    [(Axis.tth, ⟨120, 0, 0, true⟩)] (by decide)

/-- C8: setting a mode name outside the fixed `E4CV` hkl-engine catalog
(bissector, constant_chi, constant_omega, constant_phi, double_diffraction,
psi_constant) fails with `UnknownModeError`; setting a catalog mode name
succeeds at any time, whatever the current mode. -/
theorem setMode_catalog_only (cur m : String) :
    (m ∈ e4cvHklModes → setMode e4cvHklModes cur m = .ok m) ∧
    (m ∉ e4cvHklModes →
      setMode e4cvHklModes cur m = .error .UnknownModeError) := by
  constructor
  · intro h
    rw [setMode, if_pos h]
  · intro h
    rw [setMode, if_neg h]

/-- Witness for C8: `constant_phi` is accepted from any current mode;
`hula_hoop` is rejected with `UnknownModeError`. -/
theorem setMode_catalog_only_witness :
    setMode e4cvHklModes "bissector" "constant_phi" = .ok "constant_phi" ∧
    setMode e4cvHklModes "constant_phi" "hula_hoop" =
      .error .UnknownModeError :=
  ⟨(setMode_catalog_only "bissector" "constant_phi").1 (by decide),
   (setMode_catalog_only "constant_phi" "hula_hoop").2 (by decide)⟩

/-- C9: energy and wavelength are kept in the fixed relation
`calc.wavelength = A_KEV / calc.energy` (angstrom, keV), so wavelength
1.54 angstrom corresponds to the documented energy 8.050922077922078 keV
(exactly `619921/77000` keV, agreeing with the printed 64-bit value to
within 1e-14), and writing the `.energy` signal adds `.energy_offset` and
converts from `.energy_units` into keV: units eV, offset 1.5, energy 8000
yields `calc.energy = 8.0015` keV. -/
theorem energy_wavelength_relation :
    (∀ e : ℚ, e ≠ 0 → wavelengthOfEnergy e * e = A_KEV) ∧
    energyOfWavelength 1.54 = 619921 / 77000 ∧
    |energyOfWavelength 1.54 - 8.050922077922078| < 1 / 10 ^ 14 ∧
    energyChanged .eV 1.5 8000 = 8.0015 := by
  refine ⟨fun e he => ?_, ?_, ?_, ?_⟩
  · rw [wavelengthOfEnergy, div_mul_cancel₀ _ he]
  · rw [energyOfWavelength, A_KEV]
    norm_num
  · rw [energyOfWavelength, A_KEV, abs_sub_lt_iff]
    norm_num
  · rw [energyChanged, toKeV]
    norm_num

/-- Witness for C9: the reciprocal relation instantiated at the documented
operating energy of the e4cv example. -/
theorem energy_wavelength_relation_witness :
    wavelengthOfEnergy 8.050922077922078 * 8.050922077922078 = A_KEV :=
  energy_wavelength_relation.1 8.050922077922078 (by norm_num)

end Hklpy

namespace Hklpy

/-- Evaluation helper: the toy position is allowed by the defaults. -/
theorem allowed_default_toy :
    allowed defaultConstraints { omega := 10, chi := 20, phi := 30, tth := 0 } = true := by
  norm_num [allowed, axisAllowed, limitEps, defaultConstraints, defaultConstraint]

/-- Evaluation helper: the first branch is allowed by the defaults. -/
theorem allowed_open_branch1 :
    allowed defaultConstraints { omega := 30, chi := 0, phi := 90, tth := 60 } = true := by
  norm_num [allowed, axisAllowed, limitEps, defaultConstraints, defaultConstraint]

/-- Evaluation helper: the second branch is allowed by the defaults. -/
theorem allowed_open_branch2 :
    allowed defaultConstraints { omega := -30, chi := 0, phi := -90, tth := -60 } = true := by
  norm_num [allowed, axisAllowed, limitEps, defaultConstraints, defaultConstraint]

/-- Evaluation helper: the first branch passes the positive constraint table. -/
theorem allowed_positive_branch1 :
    allowed positiveConstraints { omega := 30, chi := 0, phi := 90, tth := 60 } = true := by
  norm_num [allowed, axisAllowed, limitEps, positiveConstraints, defaultConstraint]

/-- Evaluation helper: the second branch fails the positive constraint table. -/
theorem allowed_positive_branch2 :
    allowed positiveConstraints { omega := -30, chi := 0, phi := -90, tth := -60 } = false := by
  norm_num [allowed, axisAllowed, limitEps, positiveConstraints, defaultConstraint]

/-- C2: for every reachable real-axis position `p` under the engine's mode
and constraints, the candidate set returned by `forward(inverse(p))`
contains a position equal to `p` within 1e-6 degrees on every axis, and
`inverse` is idempotent: two calls on the same state yield equal results. -/
theorem forward_inverse_roundtrip (e : Engine) (p : Position4)
    (hreach : Reachable e p) :
    (∃ q ∈ forwardAll e (inverse e p), withinTol (1 / 10 ^ 6) q p) ∧
      inverse e p = inverse e p := by
  obtain ⟨hallow, hmem⟩ := hreach
  refine ⟨⟨p, ?_, ?_⟩, rfl⟩
  · rw [forwardAll]
    exact List.mem_filter.mpr ⟨hmem, hallow⟩
  · refine ⟨?_, ?_, ?_, ?_⟩ <;> simp

/-- Witness for C2: a concrete reachable position of the toy engine
round-trips through `forward(inverse(p))`. -/
theorem forward_inverse_roundtrip_witness :
    (∃ q ∈ forwardAll toyEngine (inverse toyEngine ⟨10, 20, 30, 0⟩),
      withinTol (1 / 10 ^ 6) q ⟨10, 20, 30, 0⟩) ∧
    inverse toyEngine ⟨10, 20, 30, 0⟩ = inverse toyEngine ⟨10, 20, 30, 0⟩ :=
  forward_inverse_roundtrip toyEngine ⟨10, 20, 30, 0⟩
    ⟨allowed_default_toy, by simp [toyEngine, toyBackend]⟩

/-- C3 counterexample: for the two-branch backend the raw solution set of the
`(100)` target has 2 candidates (both listed under wide-open constraints),
and after applying a constraint table excluding all but one candidate,
`forward()` returns exactly that candidate — but the full-solution listing
`calc.forward` does NOT return the unfiltered set of 2: it too is filtered
down to the single allowed candidate. -/
theorem forwardAll_is_filtered_counterexample :
    (twoBranchBackend.solveForward ⟨1, 0, 0⟩).length = 2 ∧
    forwardAll twoBranchEngineOpen ⟨1, 0, 0⟩ =
      twoBranchBackend.solveForward ⟨1, 0, 0⟩ ∧
    forward twoBranchEngine ⟨0, 0, 0, 0⟩ ⟨1, 0, 0⟩ =
      .ok { omega := 30, chi := 0, phi := 90, tth := 60 } ∧
    forwardAll twoBranchEngine ⟨1, 0, 0⟩ =
      [{ omega := 30, chi := 0, phi := 90, tth := 60 }] ∧
    forwardAll twoBranchEngine ⟨1, 0, 0⟩ ≠
      twoBranchBackend.solveForward ⟨1, 0, 0⟩ := by
  have hopen : forwardAll twoBranchEngineOpen ⟨1, 0, 0⟩ =
      twoBranchBackend.solveForward ⟨1, 0, 0⟩ := by
    simp [forwardAll, twoBranchEngineOpen, twoBranchBackend, List.filter_cons,
      allowed_open_branch1, allowed_open_branch2]
  have hfiltered : forwardAll twoBranchEngine ⟨1, 0, 0⟩ =
      [{ omega := 30, chi := 0, phi := 90, tth := 60 }] := by
    simp [forwardAll, twoBranchEngine, twoBranchBackend, List.filter_cons,
      allowed_positive_branch1, allowed_positive_branch2]
  refine ⟨rfl, hopen, ?_, hfiltered, ?_⟩
  · rw [forward]
    show (match defaultDecisionFcn ⟨0, 0, 0, 0⟩
        (forwardAll twoBranchEngine ⟨1, 0, 0⟩) with
      | some p => Except.ok p
      | none => Except.error HklError.NoSolutionError) = _
    rw [hfiltered]
    rfl
  · rw [hfiltered]
    simp [twoBranchBackend]

/-- C3 (amended): when the constraint table excludes all but one of the
backend's candidates, `forward()` returns exactly that remaining candidate
and the full-solution listing `calc.forward` returns exactly the allowed
candidates — the same single one; constraint filtering applies to the
listing as well, and `forward()` selects from the already-filtered list. -/
theorem forward_constraint_filtering (e : Engine) (cur : Position4)
    (t : PseudoHKL) (p : Position4)
    (hdec : e.decisionFcn = defaultDecisionFcn)
    (hone : (e.backend.solveForward t).filter
      (fun q => allowed e.constraints q) = [p]) :
    forwardAll e t = [p] ∧ forward e cur t = .ok p := by
  have h1 : forwardAll e t = [p] := hone
  refine ⟨h1, ?_⟩
  rw [forward, hdec, h1]
  rfl

/-- Witness for C3: the two-branch engine under the positive constraint
table lists and returns only the surviving candidate. -/
theorem forward_constraint_filtering_witness :
    forwardAll twoBranchEngine ⟨1, 0, 0⟩ =
      [{ omega := 30, chi := 0, phi := 90, tth := 60 }] ∧
    forward twoBranchEngine ⟨0, 0, 0, 0⟩ ⟨1, 0, 0⟩ =
      .ok { omega := 30, chi := 0, phi := 90, tth := 60 } :=
  forward_constraint_filtering twoBranchEngine ⟨0, 0, 0, 0⟩ ⟨1, 0, 0⟩
    { omega := 30, chi := 0, phi := 90, tth := 60 } rfl
    (by simp [twoBranchEngine, twoBranchBackend, List.filter_cons,
      allowed_positive_branch1, allowed_positive_branch2])

/-- C4: when the allowed candidate list is non-empty, `forward()` with the
default decision function returns its first candidate in the backend's
returned order, and the decision function is a per-instance field whose
replacement changes which single candidate `forward()` returns. -/
theorem forward_default_decision (e : Engine) (cur : Position4)
    (t : PseudoHKL) (p : Position4) (rest : List Position4)
    (hdec : e.decisionFcn = defaultDecisionFcn)
    (hall : forwardAll e t = p :: rest) :
    forward e cur t = .ok p ∧
      ∀ (f : Position4 → List Position4 → Option Position4) (q : Position4),
        f cur (p :: rest) = some q →
        forward { e with decisionFcn := f } cur t = .ok q := by
  constructor
  · rw [forward, hdec, hall]
    rfl
  · intro f q hf
    have hall' : forwardAll { e with decisionFcn := f } t = p :: rest := hall
    rw [forward, hall']
    show (match f cur (p :: rest) with
      | some p => Except.ok p
      | none => Except.error HklError.NoSolutionError) = .ok q
    rw [hf]

/-- Witness for C4: with both branches allowed, the default decision
function picks the first backend solution, and a replacement decision
function (last element) picks the other. -/
theorem forward_default_decision_witness :
    forward twoBranchEngineOpen ⟨0, 0, 0, 0⟩ ⟨1, 0, 0⟩ =
      .ok { omega := 30, chi := 0, phi := 90, tth := 60 } ∧
    forward { twoBranchEngineOpen with
        decisionFcn := fun _ solutions => solutions.getLast? } ⟨0, 0, 0, 0⟩
      ⟨1, 0, 0⟩ = .ok { omega := -30, chi := 0, phi := -90, tth := -60 } := by
  have h := forward_default_decision twoBranchEngineOpen ⟨0, 0, 0, 0⟩ ⟨1, 0, 0⟩
    { omega := 30, chi := 0, phi := 90, tth := 60 }
    [{ omega := -30, chi := 0, phi := -90, tth := -60 }] rfl
    (by simp [forwardAll, twoBranchEngineOpen, twoBranchBackend,
      List.filter_cons, allowed_open_branch1, allowed_open_branch2])
  exact ⟨h.1, h.2 (fun _ solutions => solutions.getLast?)
    { omega := -30, chi := 0, phi := -90, tth := -60 } rfl⟩

end Hklpy

namespace Hklpy

/-- Evaluation helper: transposing the identity matrix. -/
theorem transpose3_idMat3 : transpose3 idMat3 = idMat3 := by
  funext i j
  simp [transpose3, idMat3, eq_comm]

/-- Evaluation helper: the identity matrix is a left unit for `mul3`. -/
theorem mul3_idMat3_left (A : Mat3) : mul3 idMat3 A = A := by
  funext i j
  fin_cases i <;> simp [mul3, idMat3, Fin.ext_iff]

/-- Evaluation helper: applying the identity matrix to a vector. -/
theorem mulVec3_idMat3 (v : Vec3) : mulVec3 idMat3 v = v := by
  funext i
  fin_cases i <;> simp [mulVec3, idMat3, Fin.ext_iff]

/-- Evaluation helper: applying a scalar multiple of the identity. -/
theorem mulVec3_smul3_idMat3 (c : ℝ) (v : Vec3) :
    mulVec3 (smul3 c idMat3) v = fun i => c * v i := by
  funext i
  fin_cases i <;> simp [mulVec3, smul3, idMat3, Fin.ext_iff]

/-- Evaluation helper: magnitude of a vector along the x axis. -/
theorem norm3_axis_x (c : ℝ) (hc : 0 ≤ c) : norm3 (vec3 c 0 0) = c := by
  rw [norm3, normSq3]
  simp [vec3]
  exact Real.sqrt_sq hc

/-- Evaluation helper: magnitude of a vector along the y axis. -/
theorem norm3_axis_y (c : ℝ) (hc : 0 ≤ c) : norm3 (vec3 0 c 0) = c := by
  rw [norm3, normSq3]
  simp [vec3]
  exact Real.sqrt_sq hc

/-- Evaluation helper: normalizing a vector along the x axis. -/
theorem normalize3_axis_x (c : ℝ) (hc : 0 < c) :
    normalize3 (vec3 c 0 0) = vec3 1 0 0 := by
  funext i
  rw [normalize3, norm3_axis_x c hc.le]
  fin_cases i <;> simp [vec3, div_self hc.ne']

/-- Evaluation helper: normalizing a vector along the y axis. -/
theorem normalize3_axis_y (c : ℝ) (hc : 0 < c) :
    normalize3 (vec3 0 c 0) = vec3 0 1 0 := by
  funext i
  rw [normalize3, norm3_axis_y c hc.le]
  fin_cases i <;> simp [vec3, div_self hc.ne']

/-- Evaluation helper: the orthonormal triad of positive multiples of the x
and y axes is the identity matrix. -/
theorem triad_axis_xy (c d : ℝ) (hc : 0 < c) (hd : 0 < d) :
    triad (vec3 c 0 0) (vec3 0 d 0) = idMat3 := by
  rw [triad]
  rw [normalize3_axis_x c hc]
  have hdot : dot3 (vec3 0 d 0) (vec3 1 0 0) = 0 := by simp [dot3, vec3]
  have harg : (fun i => vec3 0 d 0 i -
      dot3 (vec3 0 d 0) (vec3 1 0 0) * vec3 1 0 0 i) = vec3 0 d 0 := by
    funext i
    rw [hdot]
    ring
  rw [harg, normalize3_axis_y d hd]
  funext i j
  fin_cases i <;> fin_cases j <;>
    simp [cross3, vec3, idMat3, Fin.ext_iff, Matrix.vecHead, Matrix.vecTail]

end Hklpy

namespace Hklpy

/-- Evaluation helper: for a cubic cell the `B` matrix is `(2π/a)·I`,
matching the documented cubic `UB` diagonal `2π/a`. -/
theorem computeB_cubic (a : ℝ) (ha : 0 < a) :
    computeB ⟨a, a, a, 90, 90, 90⟩ = smul3 (2 * Real.pi / a) idMat3 := by
  have hdeg : deg2rad 90 = Real.pi / 2 := by
    rw [deg2rad]
    ring
  funext i j
  rw [computeB]
  simp only [hdeg, Real.cos_pi_div_two, Real.sin_pi_div_two]
  fin_cases i <;> fin_cases j <;>
    norm_num [smul3, idMat3, Fin.ext_iff, Matrix.vecHead, Matrix.vecTail] <;>
    field_simp

/-- Evaluation helper: `h_c` of the (4,0,0) reflection on a cubic cell. -/
theorem hc_cubic_400 (a : ℝ) (ha : 0 < a) :
    hc ⟨a, a, a, 90, 90, 90⟩ reflection400 = vec3 (2 * Real.pi / a * 4) 0 0 := by
  rw [hc, computeB_cubic a ha, mulVec3_smul3_idMat3]
  funext i
  fin_cases i <;> norm_num [vec3, reflection400]

/-- Evaluation helper: `h_c` of the (0,4,0) reflection on a cubic cell. -/
theorem hc_cubic_040 (a : ℝ) (ha : 0 < a) :
    hc ⟨a, a, a, 90, 90, 90⟩ reflection040 = vec3 0 (2 * Real.pi / a * 4) 0 := by
  rw [hc, computeB_cubic a ha, mulVec3_smul3_idMat3]
  funext i
  fin_cases i <;> norm_num [vec3, reflection040]

/-- Evaluation helper: `h_phi` of the (4,0,0) reflection under the toy
kinematics is the x axis. -/
theorem hphi_toy_400 : hphi toyOrientationBackend reflection400 = vec3 1 0 0 := by
  rw [hphi, toyOrientationBackend]
  rw [transpose3_idMat3, mulVec3_idMat3]
  norm_num [reflection400]

/-- Evaluation helper: `h_phi` of the (0,4,0) reflection under the toy
kinematics is the y axis. -/
theorem hphi_toy_040 : hphi toyOrientationBackend reflection040 = vec3 0 1 0 := by
  rw [hphi, toyOrientationBackend]
  rw [transpose3_idMat3, mulVec3_idMat3]
  norm_num [reflection040]

/-- Evaluation helper: on any cubic cell the toy kinematics orient the
documented reflection pair to the identity `U`. -/
theorem busingLevyU_cubic_toy (a : ℝ) (ha : 0 < a) :
    busingLevyU toyOrientationBackend ⟨a, a, a, 90, 90, 90⟩
      reflection400 reflection040 = idMat3 := by
  have hpos : 0 < 2 * Real.pi / a * 4 := by positivity
  rw [busingLevyU, hphi_toy_400, hphi_toy_040, hc_cubic_400 a ha, hc_cubic_040 a ha]
  rw [triad_axis_xy 1 1 one_pos one_pos, triad_axis_xy _ _ hpos hpos]
  rw [transpose3_idMat3, mul3_idMat3_left]

/-- Evaluation helper: the documented reflection pair is non-collinear on a
small cubic cell — the squared cross-product magnitude is `(8π/a)^4`, far
above the threshold. -/
theorem noncollinear_cubic_toy (a : ℝ) (ha : 0 < a) (ha8 : a ≤ 8) :
    degenEps ^ 2 < normSq3 (cross3 (hc ⟨a, a, a, 90, 90, 90⟩ reflection400)
      (hc ⟨a, a, a, 90, 90, 90⟩ reflection040)) := by
  rw [hc_cubic_400 a ha, hc_cubic_040 a ha]
  have hval : normSq3 (cross3 (vec3 (2 * Real.pi / a * 4) 0 0)
      (vec3 0 (2 * Real.pi / a * 4) 0)) = (2 * Real.pi / a * 4) ^ 4 := by
    norm_num [cross3, vec3, normSq3, Matrix.vecHead, Matrix.vecTail]
    ring
  rw [hval]
  have hc3 : (3 : ℝ) ≤ 2 * Real.pi / a * 4 := by
    rw [show 2 * Real.pi / a * 4 = 8 * Real.pi / a by ring, le_div_iff₀ ha]
    nlinarith [Real.pi_gt_three]
  have h9 : (9 : ℝ) ≤ (2 * Real.pi / a * 4) ^ 2 := by nlinarith
  have h81 : (81 : ℝ) ≤ (2 * Real.pi / a * 4) ^ 4 := by nlinarith [h9]
  rw [degenEps]
  nlinarith

end Hklpy

namespace Hklpy

/-- Evaluation helper: on two available, non-collinear reflections
`compute_UB` succeeds, storing the Busing-Levy matrices and returning the
status value 1. -/
theorem computeUB_eval (bk : OrientationBackend) (s : Sample) (i j : ℕ)
    (r1 r2 : Reflection)
    (hi : s.reflections.get? i = some r1) (hj : s.reflections.get? j = some r2)
    (hnc : degenEps ^ 2 < normSq3 (cross3 (hc s.lattice r1) (hc s.lattice r2))) :
    computeUB bk s i j = .ok
      ({ s with
         reflections := (s.reflections.set i ({ r1 with orient := true })).set j
           ({ r2 with orient := true }),
         U := busingLevyU bk s.lattice r1 r2,
         UB := mul3 (busingLevyU bk s.lattice r1 r2) (computeB s.lattice) }, 1) := by
  unfold computeUB
  simp only [hi, hj]
  rw [if_neg (not_le.mpr hnc)]

/-- C6 counterexample: two valid `compute_UB` runs on samples differing only
in the lattice both return the constant value 1, while their computed `UB`
matrices differ — the return value is a status code, not the computed 3x3
`UB` matrix. -/
theorem computeUB_returns_status_counterexample :
    (computeUB toyOrientationBackend sampleTwoPi 0 1).map Prod.snd = .ok 1 ∧
    (computeUB toyOrientationBackend samplePi 0 1).map Prod.snd = .ok 1 ∧
    (computeUB toyOrientationBackend sampleTwoPi 0 1).map (fun p => p.1.UB) ≠
      (computeUB toyOrientationBackend samplePi 0 1).map (fun p => p.1.UB) := by
  have ha2 : (0 : ℝ) < 2 * Real.pi := by positivity
  have ha1 : (0 : ℝ) < Real.pi := Real.pi_pos
  have h8a : 2 * Real.pi ≤ 8 := by nlinarith [Real.pi_le_four]
  have h8b : Real.pi ≤ 8 := by nlinarith [Real.pi_le_four]
  have h1 := computeUB_eval toyOrientationBackend sampleTwoPi 0 1
    reflection400 reflection040 rfl rfl
    (noncollinear_cubic_toy (2 * Real.pi) ha2 h8a)
  have h2 := computeUB_eval toyOrientationBackend samplePi 0 1
    reflection400 reflection040 rfl rfl
    (noncollinear_cubic_toy Real.pi ha1 h8b)
  refine ⟨by rw [h1]; rfl, by rw [h2]; rfl, ?_⟩
  rw [h1, h2]
  intro hEq
  simp only [Except.map] at hEq
  have hUB := Except.ok.inj hEq
  have e1 : sampleTwoPi.lattice =
      (⟨2 * Real.pi, 2 * Real.pi, 2 * Real.pi, 90, 90, 90⟩ : Lattice) := rfl
  have e2 : samplePi.lattice =
      (⟨Real.pi, Real.pi, Real.pi, 90, 90, 90⟩ : Lattice) := rfl
  rw [e1, e2, busingLevyU_cubic_toy _ ha2, busingLevyU_cubic_toy _ ha1,
    mul3_idMat3_left, mul3_idMat3_left, computeB_cubic _ ha2,
    computeB_cubic _ ha1] at hUB
  have h00 := congrFun (congrFun hUB 0) 0
  simp only [smul3, idMat3, if_pos] at h00
  rw [div_self ha2.ne', mul_one, mul_one, mul_div_assoc, div_self ha1.ne',
    mul_one] at h00
  norm_num at h00

/-- C6 (amended): for a sample holding two non-collinear orientation
reflections, `compute_UB` returns the documented status value 1 ("always
returns 1. Ignore it.") rather than the `UB` matrix, while storing the
Busing-Levy `U` on the sample and recomputing `UB = U · B` as a side
effect; with fewer than two reflections available it fails with
`InsufficientReflectionsError`. -/
theorem computeUB_status_and_side_effects (bk : OrientationBackend)
    (s : Sample) (i j : ℕ) (r1 r2 : Reflection)
    (hi : s.reflections.get? i = some r1) (hj : s.reflections.get? j = some r2)
    (hnc : degenEps ^ 2 < normSq3 (cross3 (hc s.lattice r1) (hc s.lattice r2))) :
    (∃ s', computeUB bk s i j = .ok (s', 1) ∧
      s'.U = busingLevyU bk s.lattice r1 r2 ∧
      s'.UB = mul3 s'.U (computeB s.lattice) ∧
      s'.lattice = s.lattice) ∧
    (∀ i' j', s.reflections.length ≤ i' →
      computeUB bk s i' j' = .error .InsufficientReflectionsError) := by
  refine ⟨⟨_, computeUB_eval bk s i j r1 r2 hi hj hnc, rfl, rfl, rfl⟩, ?_⟩
  intro i' j' hlen
  have hnone : s.reflections.get? i' = none := List.get?_eq_none.mpr hlen
  unfold computeUB
  cases hj' : s.reflections.get? j' <;> simp only [hnone, hj']

/-- Witness for C6: the documented reflection pair on the 2π cubic cell. -/
theorem computeUB_status_and_side_effects_witness :
    ∃ s', computeUB toyOrientationBackend sampleTwoPi 0 1 = .ok (s', 1) ∧
      s'.U = busingLevyU toyOrientationBackend sampleTwoPi.lattice
        reflection400 reflection040 ∧
      s'.UB = mul3 s'.U (computeB sampleTwoPi.lattice) ∧
      s'.lattice = sampleTwoPi.lattice :=
  (computeUB_status_and_side_effects toyOrientationBackend sampleTwoPi 0 1
    reflection400 reflection040 rfl rfl
    (noncollinear_cubic_toy (2 * Real.pi) (by positivity)
      (by nlinarith [Real.pi_le_four]))).1

/-- C10: the constraint state does not influence orientation setup:
`add_reflection` accepts a real-axis position outside every current
constraint range, storing it verbatim at the end of the reflection list
with the next insertion index, and two diffractometer states sharing the
same sample (hence the same reflections and wavelengths) compute the same
`UB` whatever their constraint states — constraints affect only forward
solution selection. -/
theorem constraints_do_not_influence_orientation (bk : OrientationBackend)
    (d d' : DiffState) (i j : ℕ) (h k l w : ℚ) (pos : Position4)
    (hsame : d.sample = d'.sample)
    (_hout : allowed d.cstate.current pos = false) :
    ((addReflection d h k l pos w).1.sample.reflections.getLast? =
      some { h := h, k := k, l := l, position := pos, wavelength := w,
             orient := false }) ∧
    (addReflection d h k l pos w).2 = d.sample.reflections.length ∧
    ((diffComputeUB bk d i j).map (fun p => p.1.sample.UB) =
      (diffComputeUB bk d' i j).map (fun p => p.1.sample.UB)) := by
  refine ⟨?_, rfl, ?_⟩
  · simp [addReflection]
  · rw [diffComputeUB, diffComputeUB, hsame]
    cases computeUB bk d'.sample i j <;> rfl

/-- Witness for C10: the position (50,50,50,50) violates every narrow
constraint yet is stored verbatim, and the narrow- and open-constraint
states compute the same `UB` from the shared sample. -/
theorem constraints_do_not_influence_orientation_witness :
    ((addReflection dstateNarrow 1 2 3
        { omega := 50, chi := 50, phi := 50, tth := 50 }
        1.54).1.sample.reflections.getLast? =
      some { h := 1, k := 2, l := 3,
             position := { omega := 50, chi := 50, phi := 50, tth := 50 },
             wavelength := 1.54, orient := false }) ∧
    (addReflection dstateNarrow 1 2 3
        { omega := 50, chi := 50, phi := 50, tth := 50 } 1.54).2 =
      dstateNarrow.sample.reflections.length ∧
    ((diffComputeUB toyOrientationBackend dstateNarrow 0 1).map
        (fun p => p.1.sample.UB) =
      (diffComputeUB toyOrientationBackend dstateOpen 0 1).map
        (fun p => p.1.sample.UB)) :=
  constraints_do_not_influence_orientation toyOrientationBackend
    dstateNarrow dstateOpen 0 1 1 2 3 1.54
    { omega := 50, chi := 50, phi := 50, tth := 50 } rfl
    (by norm_num [dstateNarrow, narrowConstraints, allowed, axisAllowed,
      limitEps])

end Hklpy
